import Mathlib

/-!
Shallow embedding of `examples/custom_servers/prompt_api_server.py`.

Python strings are modelled as `List Char`; only ASCII data flows through the
embedded operations, so ASCII `Char.toLower` / `Char.isDigit` coincide with the
Python methods on every reachable value.  Network time is modelled as a
integer-valued clock (seconds) passed explicitly; the upstream HTTP interaction is
modelled as an explicit outcome value (an exception, or a parsed JSON
envelope), so that each Python `try/except` block becomes a total function on
outcomes.
-/

namespace PromptApiServer

/-- One catalog entry, the dict shape returned inside the envelope's `data`
field (see the fields read at lines 127-139 and 181-190 of the source). -/
structure Prompt where
  file_name : List Char
  size : Int
  content_type : List Char
  updated : List Char
  expires_at : List Char
  signed_url : List Char
  deriving DecidableEq, Repr

/-- `CACHE_DURATION = 300` (line 21). -/
def CACHE_DURATION : ℤ := 300

/-- The two module-level globals `_cached_prompts` (a list once populated;
the initial `{}` is empty, hence falsy, like an empty list) and
`_cache_timestamp` (lines 22-23). -/
structure CacheState where
  cached : List Prompt
  timestamp : Option ℤ
  deriving DecidableEq, Repr

/-- The initial global state: `_cached_prompts = {}`, `_cache_timestamp = None`. -/
def initialCacheState : CacheState := ⟨[], none⟩

/-- `PromptCache.get_cached_prompts` (lines 29-38): the cache answers only when
the timestamp is set, the stored list is truthy (non-empty), and the age
`now - timestamp` is below `CACHE_DURATION`. -/
def get_cached_prompts (now : ℤ) (s : CacheState) : Option (List Prompt) :=
  match s.timestamp with
  | none => none
  | some t =>
    if s.cached = [] then none
    else if now - t < CACHE_DURATION then some s.cached else none

/-- `PromptCache.update_cache` (lines 41-44): overwrite both globals. -/
def update_cache (prompts : List Prompt) (now : ℤ) : CacheState :=
  ⟨prompts, some now⟩

/-- `file_name.replace('.txt', '')` (line 84): every leftmost, non-overlapping
occurrence of `.txt` is removed, not only a trailing one. -/
def removeTxt : List Char → List Char
  | '.' :: 't' :: 'x' :: 't' :: rest => removeTxt rest
  | c :: rest => c :: removeTxt rest
  | [] => []

/-- Python `str.replace(a, b)` for one-character patterns (line 84). -/
def pyReplaceChar (a b : Char) (s : List Char) : List Char :=
  s.map fun c => if c = a then b else c

/-- A character kept by `re.sub(r'[^a-zA-Z0-9_]', '', name)` (line 86). -/
def isWordChar (c : Char) : Bool :=
  c.isAlpha || c.isDigit || c == '_'

/-- Lines 88-89: `if name and name[0].isdigit(): name = f"prompt_{name}"`. -/
def digitGuard : List Char → List Char
  | [] => []
  | c :: rest => if c.isDigit then "prompt_".toList ++ (c :: rest) else c :: rest

/-- Line 90: `return name or "unknown_prompt"`. -/
def pyOrUnknown (s : List Char) : List Char :=
  if s = [] then "unknown_prompt".toList else s

/-- `sanitize_tool_name` (lines 81-90), step by step in the source's order:
remove `.txt` occurrences, `-` to `_`, space to `_`, drop non-word characters,
guard a digit head, fall back to `unknown_prompt` when empty. -/
def sanitize_tool_name (file_name : List Char) : List Char :=
  pyOrUnknown (digitGuard
    ((pyReplaceChar ' ' '_' (pyReplaceChar '-' '_' (removeTxt file_name))).filter isWordChar))

/-- The regex `[a-zA-Z_][a-zA-Z0-9_]*` from the specification. -/
def matchesIdent : List Char → Bool
  | [] => false
  | c :: rest => (c.isAlpha || c == '_') && rest.all isWordChar

/-- Outcome of the upstream catalog request in `fetch_prompts_from_api`
(lines 54-58): either some exception was raised before `data` was produced
(timeout, connection error, `raise_for_status` on a non-2xx reply, JSON parse
error), or a JSON envelope was parsed, with its optional top-level `status`
and `data` fields. -/
inductive FetchOutcome where
  | failure (msg : List Char)
  | envelope (status : Option ℤ) (dataField : Option (List Prompt))
  deriving DecidableEq, Repr

/-- The network part of `fetch_prompts_from_api` (lines 54-68): the
`client.get`/`raise_for_status`/`json()` outcome is dispatched — the envelope
check of line 59 accepts only `status == 200` with a `data` field present, and
the `except` block of lines 66-68 swallows every failure into `[]`. -/
def fetchResponse (now : ℤ) (s : CacheState) :
    FetchOutcome → List Prompt × CacheState × Bool
  | .failure _ => ([], s, true)
  | .envelope st dt =>
    if st = some 200 then
      match dt with
      | some prompts => (prompts, update_cache prompts now, true)
      | none => ([], s, true)
    else ([], s, true)

/-- `fetch_prompts_from_api` (lines 46-68).  Returns the prompt list, the
cache state after the call, and whether the upstream endpoint was consulted
(`false` exactly when the result was served from the cache). -/
def fetch_prompts_from_api (now : ℤ) (o : FetchOutcome) (s : CacheState) :
    List Prompt × CacheState × Bool :=
  match get_cached_prompts now s with
  | some cached => (cached, s, false)
  | none => fetchResponse now s o

/-- Outcome of the GET against a signed URL in `fetch_prompt_content`
(lines 73-76): the body text, or the string rendering of the exception. -/
inductive ContentOutcome where
  | success (body : List Char)
  | failure (msg : List Char)
  deriving DecidableEq, Repr

/-- `fetch_prompt_content` (lines 70-79). -/
def fetch_prompt_content : ContentOutcome → List Char
  | .success body => body
  | .failure msg => "Error loading prompt: ".toList ++ msg

/-- Python `str.lower()` restricted to ASCII, as used on file names. -/
def pyLower (s : List Char) : List Char :=
  s.map Char.toLower

/-- Python's substring test `needle in hay` on strings. -/
def containsSub (needle : List Char) : List Char → Bool
  | [] => needle.isEmpty
  | c :: rest => needle.isPrefixOf (c :: rest) || containsSub needle rest

/-- Python `str.title()` on ASCII text: the first letter of every run of
letters is upper-cased, the rest lower-cased (line 95). -/
def pyTitleAux : Bool → List Char → List Char
  | _, [] => []
  | prevAlpha, c :: rest =>
    if c.isAlpha then
      (if prevAlpha then c.toLower else c.toUpper) :: pyTitleAux true rest
    else c :: pyTitleAux false rest

def pyTitle (s : List Char) : List Char :=
  pyTitleAux false s

/-- The category classification of `create_tool_description` (lines 98-107). -/
def toolCategory (file_name : List Char) : List Char :=
  let lower := pyLower file_name
  if containsSub "test".toList lower then "Testing & Quality Assurance".toList
  else if containsSub "ui".toList lower || containsSub "frontend".toList lower
      || containsSub "fes".toList lower then "Frontend Development".toList
  else if containsSub "be".toList lower || containsSub "backend".toList lower then
    "Backend Development".toList
  else if containsSub "api".toList lower then "API Development".toList
  else "General Development".toList

/-- `create_tool_description` (lines 92-109). -/
def create_tool_description (file_name : List Char) (size : ℤ) (updated : List Char) :
    List Char :=
  let base_name :=
    pyTitle (pyReplaceChar '_' ' ' (pyReplaceChar '-' ' ' (removeTxt file_name)))
  "Get ".toList ++ base_name ++ " prompt for ".toList ++ toolCategory file_name
    ++ ". Size: ".toList ++ (toString size).toList ++ " bytes. Last updated: ".toList
    ++ updated.take 10

/-- The dict appended per prompt by `list_available_prompts` (lines 128-140). -/
structure FormattedPrompt where
  file_name : List Char
  tool_name : List Char
  size : ℤ
  content_type : List Char
  updated : List Char
  expires_at : List Char
  description : List Char
  deriving DecidableEq, Repr

def mkFormattedPrompt (p : Prompt) : FormattedPrompt :=
  ⟨p.file_name, sanitize_tool_name p.file_name, p.size, p.content_type, p.updated,
    p.expires_at, create_tool_description p.file_name p.size p.updated⟩

/-- Return value of `list_available_prompts`: the error dict of lines 119-123
(empty prompt list) or the success dict of lines 142-150, whose `cache_info`
carries `cached = (_cache_timestamp is not None)` and the cache age. -/
inductive ListResult where
  | error (message : List Char)
  | success (total_prompts : ℕ) (prompts : List FormattedPrompt)
      (cached : Bool) (cache_age : ℤ)
  deriving DecidableEq, Repr

/-- The `cached` field of a success result's `cache_info` (line 147). -/
def ListResult.cachedFlag : ListResult → Option Bool
  | .success _ _ c _ => some c
  | .error _ => none

/-- `list_available_prompts` (lines 112-157), paired with the cache state
after the call.  The `cache_info` fields read the globals as they stand
after `fetch_prompts_from_api` returned. -/
def list_available_prompts (now : ℤ) (o : FetchOutcome) (s : CacheState) :
    ListResult × CacheState :=
  let r := fetch_prompts_from_api now o s
  if r.1 = [] then (.error "No prompts available or API error".toList, r.2.1)
  else
    (.success (r.1.map mkFormattedPrompt).length (r.1.map mkFormattedPrompt)
      (r.2.1.timestamp.isSome)
      (match r.2.1.timestamp with | some t => now - t | none => 0), r.2.1)

/-- Return value of `get_prompt_by_name`: the not-found dict of lines 174-178
or the success dict of lines 183-192. -/
inductive GetPromptResult where
  | error (message : List Char) (available_files : List (List Char))
  | success (file_name : List Char) (content : List Char)
      (size : ℤ) (updated : List Char) (content_type : List Char)
  deriving DecidableEq, Repr

/-- ASCII apostrophe, used in the f-string of line 176. -/
def quoteChar : Char := Char.ofNat 39

/-- `get_prompt_by_name` (lines 159-198), paired with the cache state after
the call.  `contentOf` models the network outcome of the GET against each
signed URL.  The loop at lines 167-170 keeps the first case-insensitive
match. -/
def get_prompt_by_name (contentOf : List Char → ContentOutcome) (now : ℤ)
    (o : FetchOutcome) (s : CacheState) (file_name : List Char) :
    GetPromptResult × CacheState :=
  let r := fetch_prompts_from_api now o s
  match r.1.find? (fun p => pyLower p.file_name == pyLower file_name) with
  | none =>
    (.error ("Prompt ".toList ++ [quoteChar] ++ file_name ++ [quoteChar]
      ++ " not found".toList) (r.1.map (·.file_name)), r.2.1)
  | some tp =>
    (.success tp.file_name (fetch_prompt_content (contentOf tp.signed_url))
      tp.size tp.updated tp.content_type, r.2.1)

/-- The dict appended per match by `search_prompts` (lines 260-270). -/
structure SearchEntry where
  file_name : List Char
  tool_name : List Char
  size : ℤ
  updated : List Char
  description : List Char
  deriving DecidableEq, Repr

def mkSearchEntry (p : Prompt) : SearchEntry :=
  ⟨p.file_name, sanitize_tool_name p.file_name, p.size, p.updated,
    create_tool_description p.file_name p.size p.updated⟩

/-- The success dict returned by `search_prompts` (lines 272-277). -/
structure SearchResult where
  keyword : List Char
  matches_found : ℕ
  prompts : List SearchEntry
  deriving DecidableEq, Repr

/-- `search_prompts` (lines 249-283), paired with the cache state after the
call: keep every catalog entry whose lower-cased `file_name` contains the
lower-cased keyword as a substring. -/
def search_prompts (now : ℤ) (o : FetchOutcome) (s : CacheState)
    (keyword : List Char) : SearchResult × CacheState :=
  let r := fetch_prompts_from_api now o s
  let matching :=
    (r.1.filter fun p => containsSub (pyLower keyword) (pyLower p.file_name)).map
      mkSearchEntry
  (⟨keyword, matching.length, matching⟩, r.2.1)

/-- A concrete catalog entry used to instantiate theorems on sample data
(the artifact shape of the spec's end-to-end scenario). -/
def samplePrompt : Prompt :=
  ⟨"fes-prompt.txt".toList, 10, "text/plain".toList,
    "2024-01-01T00:00:00Z".toList, "2024-01-01T01:00:00Z".toList,
    "http://x/a".toList⟩

/-- A concrete catalog entry whose `file_name` is `wizr-be-prompt.txt`. -/
def wizrPrompt : Prompt :=
  ⟨"wizr-be-prompt.txt".toList, 20, "text/plain".toList,
    "2024-01-02T00:00:00Z".toList, "2024-01-02T01:00:00Z".toList,
    "http://x/wizr".toList⟩

/-!
Interleaving model of concurrent `fetch_prompts_from_api` calls.  Each call is
split at its `await` points into three atomic steps: the cache check of line
50, the `client.get` of line 55 (the upstream fetch), and the
`update_cache` of line 61.  There is no lock in the source, so any
interleaving of these steps across coroutines is possible under asyncio; a
schedule is a list of request indices, executed left to right.  Every request
is assumed to receive the same good envelope carrying the payload `ps`.
-/

/-- Program counter of one in-flight `fetch_prompts_from_api` coroutine. -/
inductive ReqPC where
  | checking
  | fetching
  | storing
  | finished
  deriving DecidableEq, Repr

/-- Shared state of a burst: the cache globals, the number of upstream catalog
requests issued so far, and each coroutine's program counter. -/
structure BurstState where
  cache : CacheState
  fetches : ℕ
  reqs : List ReqPC
  deriving DecidableEq, Repr

/-- Execute one atomic step of coroutine `i`. -/
def stepReq (now : ℤ) (ps : List Prompt) (st : BurstState) (i : ℕ) : BurstState :=
  match st.reqs[i]? with
  | some .checking =>
    match get_cached_prompts now st.cache with
    | some _ => { st with reqs := st.reqs.set i .finished }
    | none => { st with reqs := st.reqs.set i .fetching }
  | some .fetching => { st with fetches := st.fetches + 1, reqs := st.reqs.set i .storing }
  | some .storing => { st with cache := update_cache ps now, reqs := st.reqs.set i .finished }
  | _ => st

def runSched (now : ℤ) (ps : List Prompt) (st : BurstState) (sched : List ℕ) :
    BurstState :=
  sched.foldl (stepReq now ps) st

/-- A burst of `n` simultaneous calls, none started yet. -/
def initBurst (s : CacheState) (n : ℕ) : BurstState :=
  ⟨s, 0, List.replicate n .checking⟩

/-- The schedule in which all `n` coroutines run their cache check before any
of them proceeds, then each one completes in turn: every one of them observes
the same (missing) cache. -/
def allMissSchedule (n : ℕ) : List ℕ :=
  List.range n ++ (List.range n).flatMap fun i => [i, i]

/-- Step 1 of the claimed sanitisation pipeline, following the claim's words:
strip a trailing `.txt` extension if present (only a trailing occurrence). -/
def stripTrailingTxt (s : List Char) : List Char :=
  if ".txt".toList.isSuffixOf s then s.take (s.length - 4) else s

/-- Step 2 of the claimed pipeline: replace every `-` and space with `_`. -/
def specReplaceDashSpace (s : List Char) : List Char :=
  s.map fun c => if c = '-' ∨ c = ' ' then '_' else c

/-- The sanitisation pipeline exactly as the claim states it: trailing-only
`.txt` strip, dash/space replacement, non-word removal, digit guard, empty
fallback. -/
def sanitizeClaimPipeline (f : List Char) : List Char :=
  pyOrUnknown (digitGuard ((specReplaceDashSpace (stripTrailingTxt f)).filter isWordChar))

/-- The pipeline with step 1 amended to what line 84 does: remove every
leftmost, non-overlapping occurrence of `.txt`, wherever it appears. -/
def sanitizeAmendedPipeline (f : List Char) : List Char :=
  pyOrUnknown (digitGuard ((specReplaceDashSpace (removeTxt f)).filter isWordChar))

end PromptApiServer

namespace PromptApiServer

example : sanitize_tool_name "fes-prompt.txt".toList = "fes_prompt".toList := by decide
example : sanitize_tool_name "123abc.txt".toList = "prompt_123abc".toList := by decide
example : sanitize_tool_name "".toList = "unknown_prompt".toList := by decide
example : sanitize_tool_name "!!!.txt".toList = "unknown_prompt".toList := by decide

theorem get_cached_of_no_timestamp (now : ℤ) (s : CacheState)
    (h : s.timestamp = none) : get_cached_prompts now s = none := by
  unfold get_cached_prompts
  rw [h]

theorem get_cached_of_timestamp (now t : ℤ) (s : CacheState)
    (h : s.timestamp = some t) :
    get_cached_prompts now s
      = if s.cached = [] then none
        else if now - t < CACHE_DURATION then some s.cached else none := by
  unfold get_cached_prompts
  rw [h]

theorem fetch_of_miss (now : ℤ) (o : FetchOutcome) (s : CacheState)
    (h : get_cached_prompts now s = none) :
    fetch_prompts_from_api now o s = fetchResponse now s o := by
  unfold fetch_prompts_from_api
  rw [h]

theorem fetch_of_hit (now : ℤ) (o : FetchOutcome) (s : CacheState)
    (ps : List Prompt) (h : get_cached_prompts now s = some ps) :
    fetch_prompts_from_api now o s = (ps, s, false) := by
  unfold fetch_prompts_from_api
  rw [h]

theorem fetchResponse_failure (now : ℤ) (s : CacheState) (msg : List Char) :
    fetchResponse now s (.failure msg) = ([], s, true) := rfl

theorem fetchResponse_good (now : ℤ) (s : CacheState) (prompts : List Prompt) :
    fetchResponse now s (.envelope (some 200) (some prompts))
      = (prompts, update_cache prompts now, true) := rfl

theorem fetchResponse_envelope (now : ℤ) (s : CacheState) (st : Option ℤ)
    (dt : Option (List Prompt)) :
    fetchResponse now s (.envelope st dt)
      = if st = some 200 then
          (match dt with
           | some prompts => (prompts, update_cache prompts now, true)
           | none => ([], s, true))
        else ([], s, true) := rfl

theorem fetchResponse_bad (now : ℤ) (s : CacheState) (st : Option ℤ)
    (dt : Option (List Prompt)) (h : st ≠ some 200 ∨ dt = none) :
    fetchResponse now s (.envelope st dt) = ([], s, true) := by
  rw [fetchResponse_envelope]
  rcases h with hst | hdt
  · rw [if_neg hst]
  · subst hdt
    by_cases hst : st = some 200
    · rw [if_pos hst]
    · rw [if_neg hst]

theorem fetchResponse_consults_upstream (now : ℤ) (s : CacheState)
    (o : FetchOutcome) : (fetchResponse now s o).2.2 = true := by
  cases o with
  | failure msg => rfl
  | envelope st dt =>
    rw [fetchResponse_envelope]
    by_cases hst : st = some 200
    · rw [if_pos hst]
      cases dt <;> rfl
    · rw [if_neg hst]

theorem pyReplaceChar_dash_space (x : List Char) :
    pyReplaceChar ' ' '_' (pyReplaceChar '-' '_' x) = specReplaceDashSpace x := by
  unfold pyReplaceChar specReplaceDashSpace
  rw [List.map_map]
  apply List.map_congr_left
  intro c _
  by_cases h1 : c = '-' <;> by_cases h2 : c = ' ' <;>
    simp [h1, h2, Function.comp]

/-- Claim C1, counterexample: `sanitize_tool_name` removes every occurrence of
`.txt`, not only a trailing one, so on `my.txtfile` it disagrees with the
claimed pipeline (which finds no trailing `.txt` and keeps the `txt` letters). -/
theorem sanitize_claim_counterexample :
    sanitize_tool_name "my.txtfile".toList ≠ sanitizeClaimPipeline "my.txtfile".toList
    ∧ sanitize_tool_name "my.txtfile".toList = "myfile".toList
    ∧ sanitizeClaimPipeline "my.txtfile".toList = "mytxtfile".toList := by
  decide

/-- Claim C1 (amended): for every input string `f`, `sanitize_tool_name f`
equals the result of applying, in order: remove every leftmost,
non-overlapping occurrence of `.txt` (wherever it appears, not only a trailing
one); replace every `-` and space with `_`; remove every character not in
`[A-Za-z0-9_]`; if the result starts with a digit, prefix it with `prompt_`;
if the result is empty, return the literal `unknown_prompt`. -/
theorem sanitize_eq_amended_pipeline (f : List Char) :
    sanitize_tool_name f = sanitizeAmendedPipeline f := by
  unfold sanitize_tool_name sanitizeAmendedPipeline
  rw [pyReplaceChar_dash_space]

/-- Claim C2: `sanitize_tool_name` is total and deterministic (a total Lean
function); its output matches `[a-zA-Z_][a-zA-Z0-9_]*` or is the literal
`unknown_prompt`. -/
theorem sanitize_total_ident (f : List Char) :
    matchesIdent (sanitize_tool_name f) = true
    ∨ sanitize_tool_name f = "unknown_prompt".toList := by
  have key : ∀ n : List Char, (∀ c ∈ n, isWordChar c = true) →
      matchesIdent (pyOrUnknown (digitGuard n)) = true
      ∨ pyOrUnknown (digitGuard n) = "unknown_prompt".toList := by
    intro n hall
    cases n with
    | nil => right; rfl
    | cons c rest =>
      left
      have hc : isWordChar c = true := hall c (by simp)
      have hrest : rest.all isWordChar = true := by
        rw [List.all_eq_true]
        intro x hx
        exact hall x (by simp [hx])
      by_cases hd : c.isDigit
      · have hdg : digitGuard (c :: rest) = "prompt_".toList ++ (c :: rest) := by
          simp [digitGuard, hd]
        rw [hdg]
        have hne : pyOrUnknown ("prompt_".toList ++ (c :: rest))
            = "prompt_".toList ++ (c :: rest) := by
          simp [pyOrUnknown]
        rw [hne]
        show matchesIdent ('p' :: ("rompt_".toList ++ (c :: rest))) = true
        simp [matchesIdent, List.all_append, hrest, hc]
        decide
      · have hdg : digitGuard (c :: rest) = c :: rest := by
          simp [digitGuard, hd]
        rw [hdg]
        have hne : pyOrUnknown (c :: rest) = c :: rest := by
          simp [pyOrUnknown]
        rw [hne]
        have hhead : (c.isAlpha || c == '_') = true := by
          simp only [isWordChar, Bool.or_eq_true] at hc
          rcases hc with (h | h) | h
          · simp [h]
          · exact absurd h hd
          · simp [h]
        simp [matchesIdent, hhead, hrest]
  simp only [sanitize_tool_name]
  exact key _ fun c hc => List.of_mem_filter hc

/-- Claim C3, counterexample: a snapshot stored at time `T = 0` is not
returned by a read at time `0`, inside the claimed validity window
`[T, T+300)`, when the snapshot is the empty list — the truthiness test of
line 33 rejects an empty cached list regardless of age. -/
theorem cache_ttl_claim_counterexample :
    get_cached_prompts 0 (update_cache [] 0) ≠ some []
    ∧ (0 : ℤ) ≤ 0 ∧ (0 : ℤ) < 0 + 300 := by
  decide

/-- Claim C3 (amended): with `CACHE_DURATION = 300`, a NON-EMPTY snapshot
stored at time `T` is returned by `get_cached_prompts` at every time in
`[T, T+300)`, and the read misses at every time at or after `T + 300`. -/
theorem cache_ttl_amended (ps : List Prompt) (T now : ℤ) (hne : ps ≠ []) :
    (T ≤ now → now < T + 300 → get_cached_prompts now (update_cache ps T) = some ps)
    ∧ (T + 300 ≤ now → get_cached_prompts now (update_cache ps T) = none) := by
  have hdef : get_cached_prompts now (update_cache ps T)
      = if ps = [] then none
        else if now - T < CACHE_DURATION then some ps else none := rfl
  rw [hdef]
  unfold CACHE_DURATION
  constructor
  · intro h1 h2
    rw [if_neg hne, if_pos (by omega)]
  · intro h
    rw [if_neg hne, if_neg (by omega)]

/-- Concrete instantiation of `cache_ttl_amended`: a one-element snapshot
stored at time 0 is still served at time 299. -/
theorem cache_ttl_amended_witness :
    get_cached_prompts 299 (update_cache [samplePrompt] 0) = some [samplePrompt] :=
  (cache_ttl_amended [samplePrompt] 0 299 (by decide)).1 (by decide) (by decide)

/-- Claim C5: `fetch_prompt_content` is a total function of the request
outcome (the `except` block at lines 77-79 catches everything): on success it
returns the raw body text, on any failure the string
`Error loading prompt: <cause>`. -/
theorem fetch_prompt_content_spec (o : ContentOutcome) :
    (∀ body, o = .success body → fetch_prompt_content o = body)
    ∧ (∀ msg, o = .failure msg →
        fetch_prompt_content o = "Error loading prompt: ".toList ++ msg) := by
  constructor <;> rintro x rfl <;> rfl

/-- Concrete instantiation of `fetch_prompt_content_spec` on a failure. -/
theorem fetch_prompt_content_spec_witness :
    fetch_prompt_content (.failure "timeout".toList)
      = "Error loading prompt: ".toList ++ "timeout".toList :=
  (fetch_prompt_content_spec (.failure "timeout".toList)).2 "timeout".toList rfl

/-- Claim C4: on a cache miss (when the upstream endpoint is actually
consulted) `fetch_prompts_from_api` is a total function of the outcome — the
`except` block at lines 66-68 converts every transport failure to `[]`, an
envelope whose `status` is not `200` or which lacks a `data` field also yields
`[]`, and a non-empty result arises only from an envelope with `status == 200`
and a present `data` field. -/
theorem fetch_prompts_error_handling (now : ℤ) (o : FetchOutcome) (s : CacheState)
    (hmiss : get_cached_prompts now s = none) :
    (∀ msg, o = .failure msg → (fetch_prompts_from_api now o s).1 = [])
    ∧ (∀ st dt, o = .envelope st dt → st ≠ some 200 ∨ dt = none →
        (fetch_prompts_from_api now o s).1 = [])
    ∧ ((fetch_prompts_from_api now o s).1 ≠ [] →
        ∃ prompts, o = .envelope (some 200) (some prompts)
          ∧ (fetch_prompts_from_api now o s).1 = prompts) := by
  rw [fetch_of_miss now o s hmiss]
  refine ⟨?_, ?_, ?_⟩
  · rintro msg rfl
    rw [fetchResponse_failure]
  · rintro st dt rfl hbad
    rw [fetchResponse_bad now s st dt hbad]
  · intro hne
    cases o with
    | failure msg => rw [fetchResponse_failure] at hne; exact absurd rfl hne
    | envelope st dt =>
      by_cases hbad : st ≠ some 200 ∨ dt = none
      · rw [fetchResponse_bad now s st dt hbad] at hne
        exact absurd rfl hne
      · push_neg at hbad
        obtain ⟨hst, hdt⟩ := hbad
        subst hst
        cases dt with
        | none => exact absurd rfl hdt
        | some prompts =>
          exact ⟨prompts, rfl, by rw [fetchResponse_good]⟩

/-- Concrete instantiation of `fetch_prompts_error_handling`: a timeout on a
cold cache yields the empty catalog. -/
theorem fetch_prompts_error_handling_witness :
    (fetch_prompts_from_api 0 (.failure "timeout".toList) initialCacheState).1 = [] :=
  (fetch_prompts_error_handling 0 (.failure "timeout".toList) initialCacheState rfl).1
    "timeout".toList rfl

/-- Claim C10: a successful upstream fetch carrying an empty `data` list is
stored in the cache, but the stored empty snapshot never satisfies a later
read — `get_cached_prompts` misses at every later time, so every subsequent
call consults the upstream endpoint again; in general the cache can only ever
answer with a non-empty list. -/
theorem empty_catalog_never_served (now now2 : ℤ) (s : CacheState) (o2 : FetchOutcome)
    (hmiss : get_cached_prompts now s = none) :
    (fetch_prompts_from_api now (.envelope (some 200) (some [])) s).2.1
      = update_cache [] now
    ∧ get_cached_prompts now2 (update_cache [] now) = none
    ∧ (fetch_prompts_from_api now2 o2 (update_cache [] now)).2.2 = true
    ∧ (∀ s2 n2 ps, get_cached_prompts n2 s2 = some ps → ps ≠ []) := by
  have hstore : (fetch_prompts_from_api now (.envelope (some 200) (some [])) s).2.1
      = update_cache [] now := by
    rw [fetch_of_miss now _ s hmiss, fetchResponse_good]
  have hmiss2 : ∀ m : ℤ, get_cached_prompts m (update_cache [] now) = none := fun m => rfl
  refine ⟨hstore, hmiss2 now2, ?_, ?_⟩
  · rw [fetch_of_miss now2 o2 _ (hmiss2 now2)]
    exact fetchResponse_consults_upstream now2 _ o2
  · intro s2 n2 ps h
    cases hts : s2.timestamp with
    | none => rw [get_cached_of_no_timestamp n2 s2 hts] at h; exact absurd h (by simp)
    | some t =>
      rw [get_cached_of_timestamp n2 t s2 hts] at h
      by_cases hc : s2.cached = []
      · rw [if_pos hc] at h
        exact absurd h (by simp)
      · rw [if_neg hc] at h
        by_cases hlt : n2 - t < CACHE_DURATION
        · rw [if_pos hlt] at h
          injection h with h
          rw [← h]
          exact hc
        · rw [if_neg hlt] at h
          exact absurd h (by simp)

/-- Concrete instantiation of `empty_catalog_never_served`: after storing an
empty snapshot at time 0, the read at time 1 (well within the TTL) misses. -/
theorem empty_catalog_never_served_witness :
    get_cached_prompts 1 (update_cache [] 0) = none :=
  (empty_catalog_never_served 0 1 initialCacheState (.failure []) rfl).2.1

theorem containsSub_nil : ∀ h : List Char, containsSub [] h = true
  | [] => rfl
  | _ :: _ => rfl

/-- Claim C6: `get_prompt_by_name` matches by case-insensitive exact equality
on `file_name`; without a match it returns the not-found error whose hint
lists every catalog `file_name`; with a match it returns success carrying the
fetched content and the matched entry's `size`, `updated` and `content_type`;
in particular `WIZR-BE-PROMPT.txt` finds the artifact named
`wizr-be-prompt.txt`. -/
theorem get_prompt_case_insensitive (contentOf : List Char → ContentOutcome)
    (now : ℤ) (o : FetchOutcome) (s : CacheState) (fn : List Char)
    (prompts : List Prompt) (hps : (fetch_prompts_from_api now o s).1 = prompts) :
    ((∀ p ∈ prompts, pyLower p.file_name ≠ pyLower fn) →
      (get_prompt_by_name contentOf now o s fn).1
        = .error ("Prompt ".toList ++ [quoteChar] ++ fn ++ [quoteChar]
            ++ " not found".toList) (prompts.map (·.file_name)))
    ∧ ((∃ p ∈ prompts, pyLower p.file_name = pyLower fn) →
      ∃ tp, tp ∈ prompts ∧ pyLower tp.file_name = pyLower fn
        ∧ (get_prompt_by_name contentOf now o s fn).1
          = .success tp.file_name (fetch_prompt_content (contentOf tp.signed_url))
              tp.size tp.updated tp.content_type)
    ∧ (get_prompt_by_name (fun _ => .success "BODY".toList) 0
        (.envelope (some 200) (some [wizrPrompt])) initialCacheState
        "WIZR-BE-PROMPT.txt".toList).1
      = .success "wizr-be-prompt.txt".toList "BODY".toList 20
          "2024-01-02T00:00:00Z".toList "text/plain".toList := by
  refine ⟨?_, ?_, by decide⟩
  · intro hnone
    have hfind : prompts.find? (fun p => pyLower p.file_name == pyLower fn) = none := by
      rw [List.find?_eq_none]
      intro p hp hcontra
      exact hnone p hp (by simpa using hcontra)
    simp [get_prompt_by_name, hps, hfind]
  · intro hex
    cases hfind : prompts.find? (fun p => pyLower p.file_name == pyLower fn) with
    | none =>
      exfalso
      obtain ⟨p, hp, hpe⟩ := hex
      rw [List.find?_eq_none] at hfind
      exact hfind p hp (by simp [hpe])
    | some tp =>
      refine ⟨tp, List.mem_of_find?_eq_some hfind, ?_, ?_⟩
      · have := List.find?_some hfind
        simpa using this
      · simp [get_prompt_by_name, hps, hfind]

/-- Concrete instantiation of `get_prompt_case_insensitive`: on an empty
catalog every lookup returns the not-found error with an empty hint list. -/
theorem get_prompt_case_insensitive_witness :
    (get_prompt_by_name (fun _ => .success "BODY".toList) 0 (.failure [])
        initialCacheState "x".toList).1
      = .error ("Prompt ".toList ++ [quoteChar] ++ "x".toList ++ [quoteChar]
          ++ " not found".toList) [] :=
  (get_prompt_case_insensitive (fun _ => .success "BODY".toList) 0 (.failure [])
    initialCacheState "x".toList [] rfl).1 (by simp)

/-- Claim C7: `search_prompts` keeps exactly the catalog entries whose
`file_name` contains the keyword as a case-insensitive substring (each
enriched by `mkSearchEntry`), with no limit, and the empty keyword keeps
every entry; `matches_found` is the number of matches. -/
theorem search_prompts_spec (now : ℤ) (o : FetchOutcome) (s : CacheState)
    (keyword : List Char) (prompts : List Prompt)
    (hps : (fetch_prompts_from_api now o s).1 = prompts) :
    ((search_prompts now o s keyword).1.prompts
      = (prompts.filter fun p =>
          containsSub (pyLower keyword) (pyLower p.file_name)).map mkSearchEntry)
    ∧ (∀ e, e ∈ (search_prompts now o s keyword).1.prompts
        ↔ ∃ p, p ∈ prompts
            ∧ containsSub (pyLower keyword) (pyLower p.file_name) = true
            ∧ e = mkSearchEntry p)
    ∧ (keyword = [] →
        (search_prompts now o s keyword).1.prompts = prompts.map mkSearchEntry)
    ∧ (search_prompts now o s keyword).1.matches_found
        = (search_prompts now o s keyword).1.prompts.length := by
  have hpr : (search_prompts now o s keyword).1.prompts
      = (prompts.filter fun p =>
          containsSub (pyLower keyword) (pyLower p.file_name)).map mkSearchEntry := by
    simp [search_prompts, hps]
  have hmf : (search_prompts now o s keyword).1.matches_found
      = (search_prompts now o s keyword).1.prompts.length := by
    simp [search_prompts]
  refine ⟨hpr, ?_, ?_, hmf⟩
  · intro e
    rw [hpr]
    simp only [List.mem_map, List.mem_filter]
    constructor
    · rintro ⟨p, ⟨hp, hpred⟩, rfl⟩
      exact ⟨p, hp, hpred, rfl⟩
    · rintro ⟨p, hp, hpred, rfl⟩
      exact ⟨p, ⟨hp, hpred⟩, rfl⟩
  · intro hk
    subst hk
    rw [hpr]
    congr 1
    apply List.filter_eq_self.mpr
    intro p _
    exact containsSub_nil _

/-- Concrete instantiation of `search_prompts_spec`: the empty keyword keeps
the whole two-element catalog. -/
theorem search_prompts_spec_witness :
    (search_prompts 0 (.envelope (some 200) (some [samplePrompt, wizrPrompt]))
        initialCacheState []).1.prompts
      = [samplePrompt, wizrPrompt].map mkSearchEntry :=
  (search_prompts_spec 0 (.envelope (some 200) (some [samplePrompt, wizrPrompt]))
    initialCacheState [] [samplePrompt, wizrPrompt] rfl).2.2.1 rfl

/-- Claim C8, counterexample: on a cold cache with a successful non-empty
upstream fetch, `list_available_prompts` reports `cache_info.cached = true`
even though the response was not served from the cache (the catalog request
consulted the upstream endpoint, witnessed by the `true` fetch flag) — the
flag of line 147 only tests `_cache_timestamp is not None`, which the fetch
performed during this very call has just set. -/
theorem list_cached_flag_counterexample :
    (list_available_prompts 0 (.envelope (some 200) (some [samplePrompt]))
        initialCacheState).1.cachedFlag = some true
    ∧ (fetch_prompts_from_api 0 (.envelope (some 200) (some [samplePrompt]))
        initialCacheState).2.2 = true := by
  constructor
  · rfl
  · rfl

/-- Claim C8 (amended): on a non-empty catalog `list_available_prompts`
returns a success result, and its `cache_info.cached` field equals
`timestamp.isSome` of the cache state as it stands after the call — i.e. it
reports that some successful fetch (possibly the fresh fetch performed during
this very call) has populated the cache, not that this response was served
from the cache. -/
theorem list_cached_flag_amended (now : ℤ) (o : FetchOutcome) (s : CacheState)
    (prompts : List Prompt) (hps : (fetch_prompts_from_api now o s).1 = prompts)
    (hne : prompts ≠ []) :
    ∃ age, (list_available_prompts now o s).1
      = .success (prompts.map mkFormattedPrompt).length (prompts.map mkFormattedPrompt)
          (fetch_prompts_from_api now o s).2.1.timestamp.isSome age := by
  refine ⟨match (fetch_prompts_from_api now o s).2.1.timestamp with
          | some t => now - t | none => 0, ?_⟩
  simp only [list_available_prompts, hps]
  rw [if_neg hne]

/-- Concrete instantiation of `list_cached_flag_amended` on a one-element
catalog fetched freshly at time 0. -/
theorem list_cached_flag_amended_witness :
    ∃ age, (list_available_prompts 0 (.envelope (some 200) (some [samplePrompt]))
        initialCacheState).1
      = .success ([samplePrompt].map mkFormattedPrompt).length
          ([samplePrompt].map mkFormattedPrompt)
          (fetch_prompts_from_api 0 (.envelope (some 200) (some [samplePrompt]))
            initialCacheState).2.1.timestamp.isSome age :=
  list_cached_flag_amended 0 (.envelope (some 200) (some [samplePrompt]))
    initialCacheState [samplePrompt] rfl (by decide)

theorem runSched_nil (now : ℤ) (ps : List Prompt) (st : BurstState) :
    runSched now ps st [] = st := rfl

theorem runSched_cons (now : ℤ) (ps : List Prompt) (st : BurstState) (i : ℕ)
    (sched : List ℕ) :
    runSched now ps st (i :: sched) = runSched now ps (stepReq now ps st i) sched := rfl

theorem runSched_append (now : ℤ) (ps : List Prompt) (st : BurstState)
    (a b : List ℕ) :
    runSched now ps st (a ++ b) = runSched now ps (runSched now ps st a) b :=
  List.foldl_append ..

theorem stepReq_checking_miss (now : ℤ) (ps : List Prompt) (cache : CacheState)
    (c : ℕ) (R : List ReqPC) (i : ℕ) (h : R[i]? = some ReqPC.checking)
    (hm : get_cached_prompts now cache = none) :
    stepReq now ps ⟨cache, c, R⟩ i = ⟨cache, c, R.set i .fetching⟩ := by
  simp [stepReq, h, hm]

theorem stepReq_fetching (now : ℤ) (ps : List Prompt) (cache : CacheState)
    (c : ℕ) (R : List ReqPC) (i : ℕ) (h : R[i]? = some ReqPC.fetching) :
    stepReq now ps ⟨cache, c, R⟩ i = ⟨cache, c + 1, R.set i .storing⟩ := by
  simp [stepReq, h]

theorem stepReq_storing (now : ℤ) (ps : List Prompt) (cache : CacheState)
    (c : ℕ) (R : List ReqPC) (i : ℕ) (h : R[i]? = some ReqPC.storing) :
    stepReq now ps ⟨cache, c, R⟩ i = ⟨update_cache ps now, c, R.set i .finished⟩ := by
  simp [stepReq, h]

theorem getElem_replicate_append {α : Type} (a x : α) (l : List α) :
    ∀ j, (List.replicate j a ++ x :: l)[j]? = some x := by
  intro j
  induction j with
  | zero => simp
  | succ n ih =>
    rw [List.replicate_succ, List.cons_append, List.getElem?_cons_succ]
    exact ih

theorem set_replicate_append {α : Type} (a x y : α) (l : List α) :
    ∀ j, (List.replicate j a ++ x :: l).set j y = List.replicate j a ++ y :: l := by
  intro j
  induction j with
  | zero => rfl
  | succ n ih =>
    rw [List.replicate_succ, List.cons_append, List.set_cons_succ, ih]
    rfl

theorem burst_check_phase (now : ℤ) (ps : List Prompt) (s : CacheState) (c : ℕ)
    (hmiss : get_cached_prompts now s = none) :
    ∀ k j, runSched now ps
        ⟨s, c, List.replicate j .fetching ++ List.replicate k .checking⟩
        (List.range' j k)
      = ⟨s, c, List.replicate (j + k) .fetching⟩ := by
  intro k
  induction k with
  | zero => intro j; simp [runSched, List.range']
  | succ n ih =>
    intro j
    rw [List.range'_succ, runSched_cons]
    have hget : (List.replicate j ReqPC.fetching
        ++ List.replicate (n + 1) ReqPC.checking)[j]? = some ReqPC.checking := by
      rw [List.replicate_succ]
      exact getElem_replicate_append _ _ _ j
    rw [stepReq_checking_miss now ps s c _ j hget hmiss]
    have hset : (List.replicate j ReqPC.fetching
          ++ List.replicate (n + 1) ReqPC.checking).set j ReqPC.fetching
        = List.replicate (j + 1) ReqPC.fetching ++ List.replicate n ReqPC.checking := by
      rw [List.replicate_succ, set_replicate_append, List.replicate_succ',
        List.append_assoc, List.singleton_append]
    rw [hset]
    have h2 := ih (j + 1)
    rw [show j + 1 + n = j + (n + 1) from by omega] at h2
    exact h2

theorem burst_complete_phase (now : ℤ) (ps : List Prompt) :
    ∀ k j c cache0, ∃ cache1,
      runSched now ps
          ⟨cache0, c, List.replicate j .finished ++ List.replicate k .fetching⟩
          ((List.range' j k).flatMap fun i => [i, i])
        = ⟨cache1, c + k, List.replicate (j + k) .finished⟩ := by
  intro k
  induction k with
  | zero => intro j c cache0; exact ⟨cache0, by simp [runSched, List.range']⟩
  | succ n ih =>
    intro j c cache0
    obtain ⟨cache1, hrun⟩ := ih (j + 1) (c + 1) (update_cache ps now)
    rw [show j + 1 + n = j + (n + 1) from by omega,
      show c + 1 + n = c + (n + 1) from by omega] at hrun
    refine ⟨cache1, ?_⟩
    rw [List.range'_succ, List.flatMap_cons]
    rw [show ([j, j] : List ℕ) = [j] ++ [j] from rfl, List.append_assoc,
      runSched_append, runSched_cons, runSched_nil]
    have hget1 : (List.replicate j ReqPC.finished
        ++ List.replicate (n + 1) ReqPC.fetching)[j]? = some ReqPC.fetching := by
      rw [List.replicate_succ]
      exact getElem_replicate_append _ _ _ j
    rw [stepReq_fetching now ps cache0 c _ j hget1]
    have hset1 : (List.replicate j ReqPC.finished
          ++ List.replicate (n + 1) ReqPC.fetching).set j ReqPC.storing
        = List.replicate j ReqPC.finished
          ++ ReqPC.storing :: List.replicate n ReqPC.fetching := by
      rw [List.replicate_succ, set_replicate_append]
    rw [hset1, runSched_append, runSched_cons, runSched_nil]
    have hget2 : (List.replicate j ReqPC.finished
        ++ ReqPC.storing :: List.replicate n ReqPC.fetching)[j]? = some ReqPC.storing :=
      getElem_replicate_append _ _ _ j
    rw [stepReq_storing now ps cache0 (c + 1) _ j hget2]
    have hset2 : (List.replicate j ReqPC.finished
          ++ ReqPC.storing :: List.replicate n ReqPC.fetching).set j ReqPC.finished
        = List.replicate (j + 1) ReqPC.finished ++ List.replicate n ReqPC.fetching := by
      rw [set_replicate_append, List.replicate_succ', List.append_assoc,
        List.singleton_append]
    rw [hset2]
    exact hrun

/-- Claim C9, counterexample: two concurrent `fetch_prompts_from_api` calls on
a cold cache, interleaved so that both pass the cache check of line 50 before
either stores (possible because the `await client.get` of line 55 is a
suspension point and the source takes no lock), issue two upstream catalog
fetches — not exactly one as claimed. -/
theorem single_flight_counterexample :
    (runSched 0 [samplePrompt] (initBurst initialCacheState 2)
      (allMissSchedule 2)).fetches = 2
    ∧ (runSched 0 [samplePrompt] (initBurst initialCacheState 2)
      (allMissSchedule 2)).fetches ≠ 1 := by
  decide

/-- Claim C9 (amended): the source has no single-flight deduplication — when
`n` concurrent calls all observe a cache miss before any of them completes
(the `allMissSchedule` interleaving), every one of them issues its own
upstream catalog fetch, for `n` upstream fetches in total rather than 1. -/
theorem burst_all_miss_fetch_count (now : ℤ) (ps : List Prompt) (s : CacheState)
    (n : ℕ) (hmiss : get_cached_prompts now s = none) :
    (runSched now ps (initBurst s n) (allMissSchedule n)).fetches = n := by
  unfold allMissSchedule initBurst
  rw [runSched_append, List.range_eq_range']
  have h1 := burst_check_phase now ps s 0 hmiss n 0
  rw [show List.replicate 0 ReqPC.fetching ++ List.replicate n ReqPC.checking
      = List.replicate n ReqPC.checking from rfl,
    show (0 : ℕ) + n = n from by omega] at h1
  rw [h1]
  obtain ⟨cache1, hrun⟩ := burst_complete_phase now ps n 0 0 s
  rw [show List.replicate 0 ReqPC.finished ++ List.replicate n ReqPC.fetching
      = List.replicate n ReqPC.fetching from rfl,
    show (0 : ℕ) + n = n from by omega] at hrun
  rw [hrun]

/-- Concrete instantiation of `burst_all_miss_fetch_count`: three concurrent
cold-cache reads under the all-miss interleaving issue three fetches. -/
theorem burst_all_miss_fetch_count_witness :
    (runSched 0 [samplePrompt] (initBurst initialCacheState 3)
      (allMissSchedule 3)).fetches = 3 :=
  burst_all_miss_fetch_count 0 [samplePrompt] initialCacheState 3 rfl

end PromptApiServer
